import Mathlib

/-!
Shallow embedding of the replibyte CLI orchestrator (`src/replibyte/src/main.rs`).

The repository snapshot contains only `main.rs`; the modules it drives
(`bridge`, `tasks`, `config`, `source`, `destination`) are referenced but not
present. Definitions below are translated from `main.rs` wherever that file
contains the code; the few definitions that stand for missing modules carry a
doc comment starting with `Modelled from the spec:` and follow the spec text.

Conventions of the embedding:
- machine integers (`u16` ports, `usize` sizes, `u128` timestamps) are `Nat`
  (no arithmetic in the modelled paths can overflow its Rust width);
- Rust `Result`/`?` propagation becomes `Except String` values threaded
  explicitly, and a `todo!()` macro invocation becomes the distinguished
  `Outcome.panicked "not yet implemented"` value (its panic message);
- external I/O collaborators (file system, terminal rendering via
  `prettytable`/`timeago`, the S3 network backend, `env_logger`, clap parsing)
  are out of scope per the spec; the observable calls `main.rs` makes into
  them (lines printed, rows displayed, task runs started) are recorded in a
  `RunTrace`.
-/

namespace Replibyte

/-- One catalogued backup record (spec §3 "Backup"; the struct lives in the
absent `bridge` module, its five fields are those read by `main.rs`:
`directory_name`, `size`, `created_at`, `compressed`, `encrypted`). -/
structure Backup where
  directory_name : String
  size : Nat
  created_at : Nat
  compressed : Bool
  encrypted : Bool
deriving Repr, DecidableEq

/-- Modelled from the spec: the `Ord` implementation of `Backup` used by
`index_file.backups.sort_by(|a, b| a.cmp(b).reverse())` lives in the absent
`bridge` module. Per spec §3, comparing two Backups orders by recency
(`created_at`), and listing ties are broken by the stable secondary key
`directory_name`; so `cmp` is the lexicographic comparison of
`(created_at, directory_name)`. -/
def Backup.cmp : Backup → Backup → Ordering :=
  compareLex (compareOn Backup.created_at) (compareOn Backup.directory_name)

instance : Batteries.TransCmp Backup.cmp :=
  inferInstanceAs (Batteries.TransCmp
    (compareLex (compareOn Backup.created_at) (compareOn Backup.directory_name)))

/-- The catalog: `s3.index_file()` result (spec §3 "Index (catalog)"). -/
structure IndexFile where
  backups : List Backup
deriving Repr, DecidableEq

/-- The comparator actually passed to `sort_by` in `list_backups`
(`main.rs:59`): `|a, b| a.cmp(b).reverse()`, i.e. ascending by the reversed
comparison = descending by `Backup.cmp`. `sort_by` sorts ascending with
respect to the comparator, so the induced boolean "less or equal". -/
def sort_by_le (a b : Backup) : Bool := (Backup.cmp a b).swap != Ordering.gt

/-- The sorted display order produced at `main.rs:59`. -/
def sorted_backups (l : List Backup) : List Backup := l.mergeSort sort_by_le

/-- What `list_backups` (`main.rs:50-79`) displays: either the empty-catalog
notice or the table rows. Row rendering (human-readable size via
`to_human_readable_unit`, relative age via `timeago`) is done by external
collaborators, so a row is recorded as the `Backup` it renders, in display
order. -/
structure ListResult where
  notice : Option String
  rows : List Backup
deriving Repr, DecidableEq

/-- `list_backups` (`main.rs:50-79`) on an already-fetched index file. The
`s3.init()` / `s3.index_file()` calls are network I/O of the absent `bridge`
module; their successful result is the `idx` argument. -/
def list_backups (idx : IndexFile) : ListResult :=
  if idx.backups.isEmpty then
    { notice := some "<empty> no backups available\n", rows := [] }
  else
    { notice := none, rows := sorted_backups idx.backups }

/-- Connection URI variants (spec §6): closed tagged choice among Postgres,
MySQL and MongoDB, MongoDB alone carrying an authentication database. -/
inductive ConnectionUri where
  | Postgres (host : String) (port : Nat) (username password database : String)
  | Mysql (host : String) (port : Nat) (username password database : String)
  | MongoDB (host : String) (port : Nat)
      (username password database authentication_db : String)
deriving Repr, DecidableEq

/-- Whether the URI is the MySQL variant. -/
def ConnectionUri.isMysql : ConnectionUri → Bool
  | .Mysql _ _ _ _ _ => true
  | _ => false

/-- The `source` block of the configuration, restricted to the fields the
modelled paths of `main.rs` read (`connection_uri()?`, `compression`,
`encryption_key()?`). The transformer and skip rules it also carries are
consumed only by the task constructors, which are abstracted below. -/
structure SourceConfig where
  connection_uri : ConnectionUri
  compression : Option Bool
  encryption_key : Option String
deriving Repr, DecidableEq

/-- The `destination` block of the configuration (same field restriction). -/
structure DestinationConfig where
  connection_uri : ConnectionUri
  compression : Option Bool
  encryption_key : Option String
deriving Repr, DecidableEq

/-- The parsed configuration file, restricted to the two optional blocks
`main.rs` dispatches on; the `bridge` credentials block only feeds
`S3::new` and is kept in the `S3` state itself. -/
structure Config where
  source : Option SourceConfig
  destination : Option DestinationConfig
deriving Repr, DecidableEq

/-- The S3 bridge state as configured by `main.rs:137-159`: the five
credential strings given to `S3::new` plus the two envelope settings the
setters mutate. -/
structure S3 where
  bucket : String
  region : String
  access_key_id : String
  secret_access_key : String
  endpoint : String
  compression : Bool
  encryption_key : Option String
deriving Repr, DecidableEq

/-- `bridge.set_compression(enable)` (setter of the absent `bridge` module;
its call sites are `main.rs:147` and `main.rs:155`). -/
def S3.set_compression (s : S3) (enable : Bool) : S3 :=
  { s with compression := enable }

/-- `bridge.set_encryption_key(key)` (setter of the absent `bridge` module;
its call sites are `main.rs:148` and `main.rs:156`). -/
def S3.set_encryption_key (s : S3) (key : Option String) : S3 :=
  { s with encryption_key := key }

/-- The two configuration matches of `main.rs:145-159`: the source block is
applied first, then the destination block, each setting
`compression.unwrap_or(true)` and the encryption key of the block. -/
def configure_bridge (config : Config) (bridge : S3) : S3 :=
  let bridge1 :=
    match config.source with
    | some source =>
        (bridge.set_compression (source.compression.getD true)).set_encryption_key
          source.encryption_key
    | none => bridge
  match config.destination with
  | some dest =>
      (bridge1.set_compression (dest.compression.getD true)).set_encryption_key
        dest.encryption_key
  | none => bridge1

/-- `BackupCommand` of the absent `cli` module, as matched by `main.rs`:
`List`, or `Run { source_type, file }`. -/
inductive BackupCommand where
  | List
  | Run (source_type : Option String) (file : Option String)
deriving Repr, DecidableEq

/-- `TransformerCommand` of the absent `cli` module: only `List`. -/
inductive TransformerCommand where
  | List
deriving Repr, DecidableEq

/-- `SubCommand` of the absent `cli` module, as matched by `main.rs`:
`Backup`, `Transformer`, or `Restore { value, output }`. -/
inductive SubCommand where
  | Backup (cmd : BackupCommand)
  | Transformer (cmd : TransformerCommand)
  | Restore (value : String) (output : Bool)
deriving Repr, DecidableEq

/-- The match at `main.rs:165-171`: the progress-bar worker thread is spawned
for every subcommand except `Restore` with `output == true`. -/
def progress_worker_spawned : SubCommand → Bool
  | .Restore _ true => false
  | _ => true

/-- `ReadOptions` of the absent `bridge` module, as constructed at
`main.rs:286-291`. -/
inductive ReadOptions where
  | Latest
  | Backup (name : String)
deriving Repr, DecidableEq

/-- The selector mapping of `main.rs:286-291`: the literal token `"latest"`
becomes `ReadOptions::Latest`, any other token an exact-name lookup. -/
def restore_read_options (value : String) : ReadOptions :=
  if value = "latest" then ReadOptions.Latest else ReadOptions.Backup value

/-- How one `main` invocation terminates: normally, with a returned error
(`return Err(..)` / `?` propagation), or with a panic (`todo!()`). -/
inductive Outcome where
  | ok
  | error (msg : String)
  | panicked (msg : String)
deriving Repr, DecidableEq

/-- Whether the outcome is an error value returned to the caller. -/
def Outcome.isError : Outcome → Bool
  | .error _ => true
  | _ => false

/-- Which progress callback a task run receives: the channel-sending closure
of `main.rs:173-175`, or the no-op closure `|_, _| {}` of `main.rs:296`. -/
inductive CallbackKind where
  | channel
  | noop
deriving Repr, DecidableEq

/-- The events a callback forwards to the progress channel: the channel
closure sends every `(bytes, max_bytes)` call to `tx_pb` (`main.rs:174`); the
no-op closure sends nothing. -/
def progress_callback_events (cb : CallbackKind) (calls : List (Nat × Nat)) :
    List (Nat × Nat) :=
  match cb with
  | .channel => calls
  | .noop => []

/-- The single-quote character used by the Rust format string
`source type {} not recognized` (single-quoted value) at `main.rs:264`. -/
def squote : Char := Char.ofNat 39

/-- A value wrapped in single quotes, as the Rust format string renders it. -/
def quoted (v : String) : String :=
  String.singleton squote ++ v ++ String.singleton squote

/-- Which concrete adapter a task was constructed with (connection parameters
are opaque to the orchestrator and omitted). -/
inductive Adapter where
  | sourcePostgres
  | sourceMongodb
  | postgresStdin
  | destPostgres
  | destMongodb
  | postgresStdout
deriving Repr, DecidableEq

/-- Whether a task invocation is a `FullBackupTask` or a `FullRestoreTask`. -/
inductive TaskKind where
  | backup
  | restore
deriving Repr, DecidableEq

/-- A task run started by `main`: which task, with which adapter, which
`ReadOptions` (restore only), and which progress callback. -/
structure TaskInvocation where
  kind : TaskKind
  adapter : Adapter
  options : Option ReadOptions
  callback : CallbackKind
deriving Repr, DecidableEq

/-- The observable behavior of one `main` dispatch (`main.rs:177-348`):
how it terminated, the non-table lines printed to stdout, the table rows
displayed, the task run it started (if any), and whether the progress worker
thread was spawned (`main.rs:165-171`). -/
structure RunTrace where
  outcome : Outcome
  printed : List String
  rows : List Backup
  task : Option TaskInvocation
  workerSpawned : Bool
deriving Repr, DecidableEq

/-- Trace of a `FullBackupTask::new(..).run(progress_callback)?` call site
followed by `println!("Backup successful!")` when the match arm completes
(`main.rs:221-269`). `backup_run` is the abstract result of the `run` call of the task
(the `tasks` module is absent; spec §4.4 fixes only its success/failure
contract). -/
def run_backup_task (adapter : Adapter) (backup_run : Except String Unit)
    (spawned : Bool) : RunTrace :=
  let inv : TaskInvocation :=
    { kind := .backup, adapter := adapter, options := none, callback := .channel }
  match backup_run with
  | .ok _ =>
      { outcome := .ok, printed := ["Backup successful!"], rows := [],
        task := some inv, workerSpawned := spawned }
  | .error e =>
      { outcome := .error e, printed := [], rows := [],
        task := some inv, workerSpawned := spawned }

/-- Trace of a `FullRestoreTask::new(..).run(..)?` call site on the
live-connection path, followed by `println!("Restore successful!")`
(`main.rs:300-339`). -/
def run_restore_task (adapter : Adapter) (options : ReadOptions)
    (restore_run : Except String Unit) (spawned : Bool) : RunTrace :=
  let inv : TaskInvocation :=
    { kind := .restore, adapter := adapter, options := some options,
      callback := .channel }
  match restore_run with
  | .ok _ =>
      { outcome := .ok, printed := ["Restore successful!"], rows := [],
        task := some inv, workerSpawned := spawned }
  | .error e =>
      { outcome := .error e, printed := [], rows := [],
        task := some inv, workerSpawned := spawned }

/-- The subcommand dispatch of `main` (`main.rs:165-348`). `idx` is the index
file the bridge would return for `BackupCommand::List`; `backup_run` /
`restore_run` are the abstract results of the task `run` calls (the `tasks`
module is absent). The `file` argument of `BackupCommand::Run` only feeds the
dead stdin pre-read at `main.rs:250-255` (external file I/O) and does not
change the dispatch. -/
def dispatch (config : Config) (cmd : SubCommand) (idx : IndexFile)
    (backup_run restore_run : Except String Unit) : RunTrace :=
  let spawned := progress_worker_spawned cmd
  match cmd with
  | .Backup .List =>
      let r := list_backups idx
      { outcome := .ok, printed := r.notice.toList, rows := r.rows,
        task := none, workerSpawned := spawned }
  | .Backup (.Run source_type _file) =>
      match config.source with
      | none =>
          { outcome := .error "missing <source> object in the configuration file",
            printed := [], rows := [], task := none, workerSpawned := spawned }
      | some source =>
          match source_type with
          | none =>
              match source.connection_uri with
              | .Postgres _ _ _ _ _ =>
                  run_backup_task .sourcePostgres backup_run spawned
              | .Mysql _ _ _ _ _ =>
                  { outcome := .panicked "not yet implemented", printed := [],
                    rows := [], task := none, workerSpawned := spawned }
              | .MongoDB _ _ _ _ _ _ =>
                  run_backup_task .sourceMongodb backup_run spawned
          | some v =>
              if v = "postgres" ∨ v = "postgresql" then
                run_backup_task .postgresStdin backup_run spawned
              else
                { outcome := .error ("source type " ++ quoted v ++ " not recognized"),
                  printed := [], rows := [], task := none, workerSpawned := spawned }
  | .Transformer .List =>
      { outcome := .ok, printed := [], rows := [], task := none,
        workerSpawned := spawned }
  | .Restore value output =>
      match config.destination with
      | none =>
          { outcome := .error "missing <destination> object in the configuration file",
            printed := [], rows := [], task := none, workerSpawned := spawned }
      | some dest =>
          let options := restore_read_options value
          if output then
            match restore_run with
            | .ok _ =>
                { outcome := .ok, printed := [], rows := [],
                  task := some { kind := .restore, adapter := .postgresStdout,
                                 options := some options, callback := .noop },
                  workerSpawned := spawned }
            | .error e =>
                { outcome := .error e, printed := [], rows := [],
                  task := some { kind := .restore, adapter := .postgresStdout,
                                 options := some options, callback := .noop },
                  workerSpawned := spawned }
          else
            match dest.connection_uri with
            | .Postgres _ _ _ _ _ =>
                run_restore_task .destPostgres options restore_run spawned
            | .Mysql _ _ _ _ _ =>
                { outcome := .panicked "not yet implemented", printed := [],
                  rows := [], task := none, workerSpawned := spawned }
            | .MongoDB _ _ _ _ _ _ =>
                run_restore_task .destMongodb options restore_run spawned

/-- Modelled from the spec: the catalog is "mutated by successful backup
completion; never mutated by restore" (spec §3) and "updated only after a
complete successful write" (spec §4.4), so a dispatch mutates the catalog
exactly when it started a backup task that completed successfully. -/
def catalog_mutated (t : RunTrace) : Bool :=
  match t.task with
  | some inv => inv.kind == TaskKind.backup && t.outcome == Outcome.ok
  | none => false

/-- The newest catalog entry: the maximum under the catalog ordering
`Backup.cmp` (spec §3: "comparing two Backups orders by recency"). -/
def newest : List Backup → Option Backup
  | [] => none
  | b :: bs =>
      some (bs.foldl (fun acc x => if Backup.cmp x acc = Ordering.gt then x else acc) b)

/-- Modelled from the spec: `Bridge::read` of the absent `bridge` module
(spec §4.3): `options` selects either the named backup — a lookup that is
fatal, "reported with the offending name" (spec §7), when no backup of that
name exists — or the most recent one, "resolved via the catalog ordering —
empty catalog is a fatal `no backups available` error". The stream it yields
is abstracted to the `Backup` record it decodes. -/
def bridge_read (catalog : List Backup) : ReadOptions → Except String Backup
  | .Latest =>
      match newest catalog with
      | none => .error "no backups available"
      | some b => .ok b
  | .Backup name =>
      match catalog.find? (fun b => b.directory_name == name) with
      | some b => .ok b
      | none => .error ("backup not found: " ++ name)

/-! ### Helper lemmas about the catalog comparator -/

theorem sort_by_le_eq_not_lt (a b : Backup) :
    sort_by_le a b = true ↔ Backup.cmp a b ≠ Ordering.lt := by
  unfold sort_by_le
  cases h : Backup.cmp a b <;> decide

theorem sort_by_le_trans (a b c : Backup) (h1 : sort_by_le a b = true)
    (h2 : sort_by_le b c = true) : sort_by_le a c = true := by
  rw [sort_by_le_eq_not_lt] at h1 h2 ⊢
  have h1' : Backup.cmp b a ≠ Ordering.gt := fun h =>
    h1 (Batteries.OrientedCmp.cmp_eq_gt.mp h)
  have h2' : Backup.cmp c b ≠ Ordering.gt := fun h =>
    h2 (Batteries.OrientedCmp.cmp_eq_gt.mp h)
  intro hac
  exact Batteries.TransCmp.le_trans h2' h1' (Batteries.OrientedCmp.cmp_eq_gt.mpr hac)

theorem sort_by_le_total (a b : Backup) :
    (sort_by_le a b || sort_by_le b a) = true := by
  rw [Bool.or_eq_true, sort_by_le_eq_not_lt, sort_by_le_eq_not_lt]
  by_cases h : Backup.cmp a b = Ordering.lt
  · right
    intro hba
    have := Batteries.OrientedCmp.cmp_eq_gt.mpr h
    rw [this] at hba
    exact absurd hba (by simp)
  · left; exact h

theorem cmp_unfold (a b : Backup) :
    Backup.cmp a b
      = (compare a.created_at b.created_at).then
          (compare a.directory_name b.directory_name) := rfl

theorem cmp_ne_lt_strict (a b : Backup) (hle : Backup.cmp a b ≠ Ordering.lt)
    (hne : a.created_at ≠ b.created_at) : b.created_at < a.created_at := by
  rcases Nat.lt_trichotomy a.created_at b.created_at with h | h | h
  · exact absurd (by rw [cmp_unfold, Nat.compare_eq_lt.mpr h]; rfl) hle
  · exact absurd h hne
  · exact h

theorem cmp_ne_lt_cases (a b : Backup) (hle : Backup.cmp a b ≠ Ordering.lt) :
    b.created_at < a.created_at ∨
      (a.created_at = b.created_at ∧
        compare a.directory_name b.directory_name ≠ Ordering.lt) := by
  rcases h : compare a.created_at b.created_at with _ | _ | _
  · exact absurd (by rw [cmp_unfold, h]; rfl) hle
  · refine Or.inr ⟨Nat.compare_eq_eq.mp h, fun hl => hle ?_⟩
    rw [cmp_unfold, h, hl]
    rfl
  · exact Or.inl (Nat.compare_eq_gt.mp h)

theorem backup_cmp_refl (b : Backup) : Backup.cmp b b = Ordering.eq :=
  Batteries.OrientedCmp.cmp_refl

/-! ### Helper lemmas about `newest` -/

theorem foldl_newest_spec (bs : List Backup) (b : Backup) :
    (bs.foldl (fun acc x => if Backup.cmp x acc = Ordering.gt then x else acc) b = b ∨
      bs.foldl (fun acc x => if Backup.cmp x acc = Ordering.gt then x else acc) b ∈ bs) ∧
    Backup.cmp b
        (bs.foldl (fun acc x => if Backup.cmp x acc = Ordering.gt then x else acc) b)
      ≠ Ordering.gt ∧
    ∀ x ∈ bs,
      Backup.cmp x
          (bs.foldl (fun acc x => if Backup.cmp x acc = Ordering.gt then x else acc) b)
        ≠ Ordering.gt := by
  induction bs generalizing b with
  | nil =>
      refine ⟨Or.inl rfl, ?_, by simp⟩
      simp [backup_cmp_refl]
  | cons y ys ih =>
      set s := if Backup.cmp y b = Ordering.gt then y else b with hs
      have hfold :
          (y :: ys).foldl (fun acc x => if Backup.cmp x acc = Ordering.gt then x else acc) b
            = ys.foldl (fun acc x => if Backup.cmp x acc = Ordering.gt then x else acc) s := by
        simp [List.foldl_cons, hs]
      obtain ⟨hmem, hsle, hall⟩ := ih s
      have hbs : Backup.cmp b s ≠ Ordering.gt := by
        by_cases h : Backup.cmp y b = Ordering.gt
        · rw [hs, if_pos h]
          rw [Batteries.OrientedCmp.cmp_eq_gt.mp h]
          simp
        · rw [hs, if_neg h]
          simp [backup_cmp_refl]
      have hys : Backup.cmp y s ≠ Ordering.gt := by
        by_cases h : Backup.cmp y b = Ordering.gt
        · rw [hs, if_pos h]
          simp [backup_cmp_refl]
        · rw [hs, if_neg h]; exact h
      rw [hfold]
      refine ⟨?_, Batteries.TransCmp.le_trans hbs hsle, ?_⟩
      · rcases hmem with hm | hm
        · rw [hm, hs]
          by_cases h : Backup.cmp y b = Ordering.gt

          · rw [if_pos h]; exact Or.inr (List.mem_cons_self y ys)
          · rw [if_neg h]; exact Or.inl rfl
        · exact Or.inr (List.mem_cons_of_mem y hm)
      · intro x hx
        rcases List.mem_cons.mp hx with hx | hx
        · rw [hx]; exact Batteries.TransCmp.le_trans hys hsle
        · exact hall x hx

theorem newest_spec (catalog : List Backup) (b : Backup)
    (h : newest catalog = some b) :
    b ∈ catalog ∧ ∀ x ∈ catalog, Backup.cmp x b ≠ Ordering.gt := by
  cases catalog with
  | nil => simp [newest] at h
  | cons y ys =>
      obtain ⟨hmem, hyle, hall⟩ := foldl_newest_spec ys y
      have hb :
          ys.foldl (fun acc x => if Backup.cmp x acc = Ordering.gt then x else acc) y = b := by
        simpa [newest] using h
      rw [hb] at hmem hyle hall
      constructor
      · rcases hmem with hm | hm
        · rw [hm]; exact List.mem_cons_self y ys
        · exact List.mem_cons_of_mem y hm
      · intro x hx
        rcases List.mem_cons.mp hx with hx | hx
        · rw [hx]; exact hyle
        · exact hall x hx

/-! ### Claim theorems -/

/-- C4: for every backup invocation where the configuration has no source
block, the run fails with the "missing source" configuration error before any
transfer begins (no task is started), and the catalog is not mutated. -/
theorem missing_source_fatal (config : Config) (source_type file : Option String)
    (idx : IndexFile) (backup_run restore_run : Except String Unit)
    (h : config.source = none) :
    (dispatch config (.Backup (.Run source_type file)) idx backup_run restore_run).outcome
        = .error "missing <source> object in the configuration file" ∧
    (dispatch config (.Backup (.Run source_type file)) idx backup_run restore_run).task
        = none ∧
    catalog_mutated
        (dispatch config (.Backup (.Run source_type file)) idx backup_run restore_run)
      = false := by
  simp [dispatch, h, catalog_mutated]

theorem missing_source_fatal_witness :
    (dispatch ⟨none, none⟩ (.Backup (.Run none none)) ⟨[]⟩ (.ok ()) (.ok ())).outcome
        = .error "missing <source> object in the configuration file" ∧
    (dispatch ⟨none, none⟩ (.Backup (.Run none none)) ⟨[]⟩ (.ok ()) (.ok ())).task = none ∧
    catalog_mutated (dispatch ⟨none, none⟩ (.Backup (.Run none none)) ⟨[]⟩ (.ok ()) (.ok ()))
      = false :=
  missing_source_fatal ⟨none, none⟩ none none ⟨[]⟩ (.ok ()) (.ok ()) rfl

/-- C5: listing backups against an empty catalog prints the single explicit
"no backups available" notice and no table rows, and completes successfully. -/
theorem empty_catalog_listing (config : Config) (idx : IndexFile)
    (backup_run restore_run : Except String Unit) (h : idx.backups = []) :
    list_backups idx
        = { notice := some "<empty> no backups available\n", rows := [] } ∧
    (dispatch config (.Backup .List) idx backup_run restore_run).outcome = .ok ∧
    (dispatch config (.Backup .List) idx backup_run restore_run).printed
        = ["<empty> no backups available\n"] ∧
    (dispatch config (.Backup .List) idx backup_run restore_run).rows = [] := by
  refine ⟨?_, ?_, ?_, ?_⟩ <;> simp [dispatch, list_backups, h]

theorem empty_catalog_listing_witness :
    list_backups ⟨[]⟩
        = { notice := some "<empty> no backups available\n", rows := [] } ∧
    (dispatch ⟨none, none⟩ (.Backup .List) ⟨[]⟩ (.ok ()) (.ok ())).outcome = .ok ∧
    (dispatch ⟨none, none⟩ (.Backup .List) ⟨[]⟩ (.ok ()) (.ok ())).printed
        = ["<empty> no backups available\n"] ∧
    (dispatch ⟨none, none⟩ (.Backup .List) ⟨[]⟩ (.ok ()) (.ok ())).rows = [] :=
  empty_catalog_listing ⟨none, none⟩ ⟨[]⟩ (.ok ()) (.ok ()) rfl

/-- C6: when both the source block and the destination block are present, the
Bridge ends up configured with the compression flag of the destination block and
encryption key — the later `set_compression`/`set_encryption_key` calls win,
whatever the source block or the initial bridge state held. -/
theorem destination_config_wins (bridge : S3) (config : Config)
    (s : SourceConfig) (d : DestinationConfig)
    (hs : config.source = some s) (hd : config.destination = some d) :
    (configure_bridge config bridge).compression = d.compression.getD true ∧
    (configure_bridge config bridge).encryption_key = d.encryption_key ∧
    ∀ flag : Bool, d.compression = some flag →
      (configure_bridge config bridge).compression = flag := by
  refine ⟨?_, ?_, ?_⟩
  · simp [configure_bridge, hs, hd, S3.set_compression, S3.set_encryption_key]
  · simp [configure_bridge, hs, hd, S3.set_compression, S3.set_encryption_key]
  · intro flag hflag
    simp [configure_bridge, hs, hd, hflag, S3.set_compression, S3.set_encryption_key]

theorem destination_config_wins_witness :
    (configure_bridge
        ⟨some ⟨.Postgres "h" 5432 "u" "p" "d", some false, some "source-key"⟩,
          some ⟨.Postgres "h" 5432 "u" "p" "d", some true, some "dest-key"⟩⟩
        ⟨"b", "r", "a", "s", "e", false, none⟩).compression = true ∧
    (configure_bridge
        ⟨some ⟨.Postgres "h" 5432 "u" "p" "d", some false, some "source-key"⟩,
          some ⟨.Postgres "h" 5432 "u" "p" "d", some true, some "dest-key"⟩⟩
        ⟨"b", "r", "a", "s", "e", false, none⟩).encryption_key = some "dest-key" :=
  ⟨(destination_config_wins ⟨"b", "r", "a", "s", "e", false, none⟩ _ _ _ rfl rfl).2.2
      true rfl,
    (destination_config_wins ⟨"b", "r", "a", "s", "e", false, none⟩ _ _ _ rfl rfl).2.1⟩

/-- C9: when the source or the destination config block is present but omits
the compression flag, the resulting Bridge compression ends up enabled
(`compression.unwrap_or(true)` defaults to `true`). -/
theorem compression_defaults_true (bridge : S3) (config : Config) :
    (∀ d, config.destination = some d → d.compression = none →
        (configure_bridge config bridge).compression = true) ∧
    (∀ s, config.source = some s → s.compression = none → config.destination = none →
        (configure_bridge config bridge).compression = true) := by
  constructor
  · intro d hd hc
    cases hsrc : config.source <;>
      simp [configure_bridge, hsrc, hd, hc, S3.set_compression, S3.set_encryption_key]
  · intro s hs hc hd
    simp [configure_bridge, hs, hd, hc, S3.set_compression, S3.set_encryption_key]

theorem compression_defaults_true_witness :
    (configure_bridge ⟨none, some ⟨.Postgres "h" 5432 "u" "p" "d", none, none⟩⟩
        ⟨"b", "r", "a", "s", "e", false, none⟩).compression = true ∧
    (configure_bridge ⟨some ⟨.Postgres "h" 5432 "u" "p" "d", none, none⟩, none⟩
        ⟨"b", "r", "a", "s", "e", false, none⟩).compression = true :=
  ⟨(compression_defaults_true ⟨"b", "r", "a", "s", "e", false, none⟩
        ⟨none, some ⟨.Postgres "h" 5432 "u" "p" "d", none, none⟩⟩).1 _ rfl rfl,
    (compression_defaults_true ⟨"b", "r", "a", "s", "e", false, none⟩
        ⟨some ⟨.Postgres "h" 5432 "u" "p" "d", none, none⟩, none⟩).2 _ rfl rfl rfl⟩

/-- C7: for every restore invocation with "write to local output" selected
(`--output`), the progress-reporting path is suppressed entirely: the
progress-presentation worker is not spawned, any task run started receives the
no-op callback, and the no-op callback forwards no events to the channel. -/
theorem restore_output_no_progress (config : Config) (value : String)
    (idx : IndexFile) (backup_run restore_run : Except String Unit) :
    (dispatch config (.Restore value true) idx backup_run restore_run).workerSpawned
        = false ∧
    (∀ inv,
        (dispatch config (.Restore value true) idx backup_run restore_run).task
            = some inv →
        inv.callback = .noop) ∧
    ∀ calls, progress_callback_events CallbackKind.noop calls = [] := by
  refine ⟨?_, ?_, fun _ => rfl⟩
  · cases hg : config.destination <;> cases restore_run <;>
      simp [dispatch, progress_worker_spawned, hg]
  · intro inv hinv
    cases hg : config.destination with
    | none => simp [dispatch, hg] at hinv
    | some dest =>
        cases restore_run <;> simp [dispatch, hg] at hinv <;> simp [← hinv]

theorem restore_output_no_progress_witness :
    (dispatch ⟨none, some ⟨.Postgres "h" 5432 "u" "p" "d", none, none⟩⟩
        (.Restore "latest" true) ⟨[]⟩ (.ok ()) (.ok ())).workerSpawned = false ∧
    TaskInvocation.callback
        ⟨TaskKind.restore, Adapter.postgresStdout, some ReadOptions.Latest,
          CallbackKind.noop⟩
      = CallbackKind.noop :=
  ⟨(restore_output_no_progress ⟨none, some ⟨.Postgres "h" 5432 "u" "p" "d", none, none⟩⟩
        "latest" ⟨[]⟩ (.ok ()) (.ok ())).1,
    (restore_output_no_progress ⟨none, some ⟨.Postgres "h" 5432 "u" "p" "d", none, none⟩⟩
        "latest" ⟨[]⟩ (.ok ()) (.ok ())).2.1
      ⟨TaskKind.restore, Adapter.postgresStdout, some ReadOptions.Latest,
        CallbackKind.noop⟩ (by decide)⟩

/-- C10: the source-type override accepts both `"postgres"` and
`"postgresql"`, selecting the Postgres stdin pass-through source, and any
other non-empty override string fails the run with the fatal
`source type <value> not recognized` error (value single-quoted) naming the offending value. -/
theorem source_type_override (config : Config) (source : SourceConfig)
    (v : String) (file : Option String) (idx : IndexFile)
    (backup_run restore_run : Except String Unit)
    (hs : config.source = some source) :
    ((v = "postgres" ∨ v = "postgresql") →
        ∃ inv,
          (dispatch config (.Backup (.Run (some v) file)) idx backup_run restore_run).task
              = some inv ∧
          inv.kind = .backup ∧ inv.adapter = .postgresStdin) ∧
    (v ≠ "postgres" → v ≠ "postgresql" → v ≠ "" →
        (dispatch config (.Backup (.Run (some v) file)) idx backup_run restore_run).outcome
            = .error ("source type " ++ quoted v ++ " not recognized") ∧
        (dispatch config (.Backup (.Run (some v) file)) idx backup_run restore_run).task
            = none) := by
  constructor
  · intro hv
    cases backup_run <;> simp [dispatch, hs, hv, run_backup_task]
  · intro h1 h2 _
    have hnot : ¬(v = "postgres" ∨ v = "postgresql") := by
      rintro (h | h)
      · exact h1 h
      · exact h2 h
    simp [dispatch, hs, hnot]

theorem source_type_override_witness :
    (∃ inv,
        (dispatch ⟨some ⟨.Postgres "h" 5432 "u" "p" "d", none, none⟩, none⟩
            (.Backup (.Run (some "postgresql") none)) ⟨[]⟩ (.ok ()) (.ok ())).task
            = some inv ∧
        inv.kind = .backup ∧ inv.adapter = .postgresStdin) ∧
    (dispatch ⟨some ⟨.Postgres "h" 5432 "u" "p" "d", none, none⟩, none⟩
        (.Backup (.Run (some "mysql") none)) ⟨[]⟩ (.ok ()) (.ok ())).outcome
        = .error ("source type " ++ quoted "mysql" ++ " not recognized") :=
  ⟨(source_type_override ⟨some ⟨.Postgres "h" 5432 "u" "p" "d", none, none⟩, none⟩
        ⟨.Postgres "h" 5432 "u" "p" "d", none, none⟩ "postgresql" none ⟨[]⟩
        (.ok ()) (.ok ()) rfl).1 (Or.inr rfl),
    ((source_type_override ⟨some ⟨.Postgres "h" 5432 "u" "p" "d", none, none⟩, none⟩
        ⟨.Postgres "h" 5432 "u" "p" "d", none, none⟩ "mysql" none ⟨[]⟩
        (.ok ()) (.ok ()) rfl).2 (by decide) (by decide) (by decide)).1⟩

/-- The MySQL connection URI used by the C1 counterexample. -/
def mysql_uri : ConnectionUri := .Mysql "127.0.0.1" 3306 "root" "password" "db"

/-- A configuration whose source block selects the MySQL variant. -/
def mysql_backup_config : Config :=
  { source := some { connection_uri := mysql_uri, compression := none,
                     encryption_key := none },
    destination := none }

/-- C1 counterexample: with the MySQL variant selected for an actual backup
transfer, the dispatch does not surface an error value to the caller at all —
it panics (the `todo!()` at `main.rs:225`, whose panic message is
"not yet implemented"), so the claimed "fails ... with an explicit error
surfaced to the caller" is false as stated. -/
theorem mysql_backup_panics_instead_of_error :
    (dispatch mysql_backup_config (.Backup (.Run none none)) ⟨[]⟩
        (.ok ()) (.ok ())).outcome = .panicked "not yet implemented" ∧
    ((dispatch mysql_backup_config (.Backup (.Run none none)) ⟨[]⟩
        (.ok ()) (.ok ())).outcome).isError = false := by
  constructor <;> rfl

/-- C1 (amended): for every run in which the MySQL variant is selected for an
actual backup or restore transfer, the run fails fast by panicking with the
explicit `todo!()` message "not yet implemented" — it never silently no-ops
(no task run is started and the outcome is never success); the failure is a
panic carrying that message, not an error value returned to the caller. -/
theorem mysql_transfer_panics (config : Config) (file : Option String)
    (value : String) (idx : IndexFile) (backup_run restore_run : Except String Unit) :
    (∀ source, config.source = some source → source.connection_uri.isMysql = true →
        (dispatch config (.Backup (.Run none file)) idx backup_run restore_run).outcome
            = .panicked "not yet implemented" ∧
        (dispatch config (.Backup (.Run none file)) idx backup_run restore_run).task
            = none ∧
        (dispatch config (.Backup (.Run none file)) idx backup_run restore_run).outcome
            ≠ .ok) ∧
    (∀ dest, config.destination = some dest → dest.connection_uri.isMysql = true →
        (dispatch config (.Restore value false) idx backup_run restore_run).outcome
            = .panicked "not yet implemented" ∧
        (dispatch config (.Restore value false) idx backup_run restore_run).task
            = none ∧
        (dispatch config (.Restore value false) idx backup_run restore_run).outcome
            ≠ .ok) := by
  constructor
  · intro source hs hm
    cases hu : source.connection_uri with
    | Postgres host port username password database =>
        rw [hu] at hm; exact absurd hm (by simp [ConnectionUri.isMysql])
    | MongoDB host port username password database authdb =>
        rw [hu] at hm; exact absurd hm (by simp [ConnectionUri.isMysql])
    | Mysql host port username password database =>
        refine ⟨?_, ?_, ?_⟩ <;> simp [dispatch, hs, hu]
  · intro dest hd hm
    cases hu : dest.connection_uri with
    | Postgres host port username password database =>
        rw [hu] at hm; exact absurd hm (by simp [ConnectionUri.isMysql])
    | MongoDB host port username password database authdb =>
        rw [hu] at hm; exact absurd hm (by simp [ConnectionUri.isMysql])
    | Mysql host port username password database =>
        refine ⟨?_, ?_, ?_⟩ <;> simp [dispatch, hd, hu]

theorem mysql_transfer_panics_witness :
    (dispatch mysql_backup_config (.Backup (.Run none none)) ⟨[]⟩
        (.ok ()) (.ok ())).task = none ∧
    (dispatch ⟨none, some ⟨mysql_uri, none, none⟩⟩ (.Restore "latest" false) ⟨[]⟩
        (.ok ()) (.ok ())).outcome = .panicked "not yet implemented" :=
  ⟨((mysql_transfer_panics mysql_backup_config none "latest" ⟨[]⟩
        (.ok ()) (.ok ())).1 _ rfl rfl).2.1,
    ((mysql_transfer_panics ⟨none, some ⟨mysql_uri, none, none⟩⟩ none "latest" ⟨[]⟩
        (.ok ()) (.ok ())).2 _ rfl rfl).1⟩

/-- C2: for every restore invocation the literal token `"latest"` resolves to
`ReadOptions::Latest` and any other token to an exact backup-name lookup; on
the bridge, `Latest` yields the newest catalog entry (maximal under the
catalog ordering), a name lookup is fatal when no backup of that name exists,
and on an empty catalog `Latest` fails with the lookup error rather than
yielding anything. Every task run started by a restore dispatch carries
exactly the options this mapping produced. -/
theorem restore_selector_resolution :
    restore_read_options "latest" = ReadOptions.Latest ∧
    (∀ v : String, v ≠ "latest" → restore_read_options v = ReadOptions.Backup v) ∧
    (∀ (catalog : List Backup) (b : Backup), newest catalog = some b →
        bridge_read catalog ReadOptions.Latest = .ok b ∧ b ∈ catalog ∧
        ∀ x ∈ catalog, Backup.cmp x b ≠ Ordering.gt) ∧
    (∀ (catalog : List Backup) (name : String),
        (∀ x ∈ catalog, x.directory_name ≠ name) →
        bridge_read catalog (ReadOptions.Backup name)
          = .error ("backup not found: " ++ name)) ∧
    bridge_read [] ReadOptions.Latest = .error "no backups available" ∧
    (∀ (config : Config) (dest : DestinationConfig) (value : String) (output : Bool)
        (idx : IndexFile) (backup_run restore_run : Except String Unit)
        (inv : TaskInvocation),
        config.destination = some dest →
        (dispatch config (.Restore value output) idx backup_run restore_run).task
            = some inv →
        inv.options = some (restore_read_options value)) := by
  refine ⟨rfl, ?_, ?_, ?_, rfl, ?_⟩
  · intro v hv
    simp [restore_read_options, hv]
  · intro catalog b h
    obtain ⟨hmem, hmax⟩ := newest_spec catalog b h
    refine ⟨?_, hmem, hmax⟩
    simp [bridge_read, h]
  · intro catalog name h
    have hfind : catalog.find? (fun b => b.directory_name == name) = none := by
      rw [List.find?_eq_none]
      intro x hx
      simpa using h x hx
    simp [bridge_read, hfind]
  · intro config dest value output idx backup_run restore_run inv hd hinv
    cases output with
    | true =>
        cases restore_run <;> simp [dispatch, hd] at hinv <;> simp [← hinv]
    | false =>
        cases hu : dest.connection_uri <;> cases restore_run <;>
          simp [dispatch, hd, hu, run_restore_task] at hinv <;> simp [← hinv]

/-- Two-entry demo catalog: backups created at epoch-millis 100 and 200. -/
def backup100 : Backup := ⟨"bk-100", 10, 100, true, false⟩

/-- The newer demo backup. -/
def backup200 : Backup := ⟨"bk-200", 20, 200, true, false⟩

theorem restore_selector_resolution_witness :
    restore_read_options "bk-100" = ReadOptions.Backup "bk-100" ∧
    bridge_read [backup100, backup200] ReadOptions.Latest = .ok backup200 ∧
    bridge_read [backup100, backup200] (ReadOptions.Backup "nope")
        = .error ("backup not found: " ++ "nope") ∧
    TaskInvocation.options
        ⟨TaskKind.restore, Adapter.destPostgres, some (ReadOptions.Backup "bk-100"),
          CallbackKind.channel⟩
      = some (restore_read_options "bk-100") :=
  ⟨restore_selector_resolution.2.1 "bk-100" (by decide),
    (restore_selector_resolution.2.2.1 [backup100, backup200] backup200 (by decide)).1,
    restore_selector_resolution.2.2.2.1 [backup100, backup200] "nope" (by decide),
    restore_selector_resolution.2.2.2.2.2
      ⟨none, some ⟨.Postgres "h" 5432 "u" "p" "d", none, none⟩⟩
      ⟨.Postgres "h" 5432 "u" "p" "d", none, none⟩ "bk-100" false ⟨[]⟩
      (.ok ()) (.ok ())
      ⟨TaskKind.restore, Adapter.destPostgres, some (ReadOptions.Backup "bk-100"),
        CallbackKind.channel⟩
      rfl (by decide)⟩

/-- C3: for every catalog of Backups with pairwise-distinct `created_at`
values, the listing displays exactly those backups (a permutation) in strictly
newest-first order of `created_at`; and with no distinctness assumption the
display order is always descending in `created_at` with ties broken
deterministically by the secondary key `directory_name`. -/
theorem listing_newest_first (idx : IndexFile)
    (hdist : idx.backups.Pairwise fun a b => a.created_at ≠ b.created_at) :
    ((list_backups idx).rows.Perm idx.backups ∧
      (list_backups idx).rows.Pairwise fun a b => b.created_at < a.created_at) ∧
    ∀ jdx : IndexFile,
      (list_backups jdx).rows.Pairwise fun a b =>
        b.created_at < a.created_at ∨
          (a.created_at = b.created_at ∧
            compare a.directory_name b.directory_name ≠ Ordering.lt) := by
  have rows_sorted : ∀ jdx : IndexFile,
      (list_backups jdx).rows.Pairwise fun a b => sort_by_le a b = true := by
    intro jdx
    by_cases h : jdx.backups.isEmpty
    · simp [list_backups, h]
    · have hs := List.sorted_mergeSort sort_by_le_trans sort_by_le_total jdx.backups
      simpa [list_backups, h, sorted_backups] using hs
  constructor
  · have hperm : (list_backups idx).rows.Perm idx.backups := by
      by_cases h : idx.backups.isEmpty
      · rw [List.isEmpty_iff] at h
        simp [list_backups, h]
      · have := List.mergeSort_perm idx.backups sort_by_le
        simpa [list_backups, h, sorted_backups] using this
    refine ⟨hperm, ?_⟩
    have hdist' : (list_backups idx).rows.Pairwise
        fun a b => a.created_at ≠ b.created_at :=
      ((hperm.pairwise_iff fun h => Ne.symm h).mpr hdist)
    exact ((rows_sorted idx).and hdist').imp fun h =>
      cmp_ne_lt_strict _ _ ((sort_by_le_eq_not_lt _ _).mp h.1) h.2
  · intro jdx
    exact (rows_sorted jdx).imp fun h =>
      cmp_ne_lt_cases _ _ ((sort_by_le_eq_not_lt _ _).mp h)

theorem listing_newest_first_witness :
    (list_backups ⟨[backup100, backup200]⟩).rows.Pairwise
      fun a b => b.created_at < a.created_at :=
  (listing_newest_first ⟨[backup100, backup200]⟩ (by decide)).1.2

/-- C8: for every backup or restore run, the distinct success confirmation
("Backup successful!" / "Restore successful!") is printed only when the
run of the corresponding task was started and completed fully with the overall run
succeeding; and whenever a started task fails, the error description becomes
the outcome of the run, and both confirmations are suppressed. -/
theorem success_confirmation_gated (config : Config) (cmd : SubCommand)
    (idx : IndexFile) (backup_run restore_run : Except String Unit) :
    ("Backup successful!" ∈ (dispatch config cmd idx backup_run restore_run).printed →
        (∃ inv, (dispatch config cmd idx backup_run restore_run).task = some inv ∧
            inv.kind = .backup) ∧
        backup_run = .ok () ∧
        (dispatch config cmd idx backup_run restore_run).outcome = .ok) ∧
    ("Restore successful!" ∈ (dispatch config cmd idx backup_run restore_run).printed →
        (∃ inv, (dispatch config cmd idx backup_run restore_run).task = some inv ∧
            inv.kind = .restore) ∧
        restore_run = .ok () ∧
        (dispatch config cmd idx backup_run restore_run).outcome = .ok) ∧
    (∀ (e : String) (inv : TaskInvocation),
        (dispatch config cmd idx backup_run restore_run).task = some inv →
        inv.kind = .backup → backup_run = .error e →
        (dispatch config cmd idx backup_run restore_run).outcome = .error e ∧
        "Backup successful!" ∉ (dispatch config cmd idx backup_run restore_run).printed ∧
        "Restore successful!" ∉ (dispatch config cmd idx backup_run restore_run).printed) ∧
    (∀ (e : String) (inv : TaskInvocation),
        (dispatch config cmd idx backup_run restore_run).task = some inv →
        inv.kind = .restore → restore_run = .error e →
        (dispatch config cmd idx backup_run restore_run).outcome = .error e ∧
        "Backup successful!" ∉ (dispatch config cmd idx backup_run restore_run).printed ∧
        "Restore successful!" ∉ (dispatch config cmd idx backup_run restore_run).printed) := by
  cases cmd with
  | Backup bc =>
      cases bc with
      | List =>
          by_cases h : idx.backups.isEmpty <;> simp [dispatch, list_backups, h]
      | Run st file =>
          cases hs : config.source with
          | none => simp [dispatch, hs]
          | some source =>
              cases st with
              | none =>
                  cases hu : source.connection_uri <;> cases backup_run <;>
                    simp [dispatch, hs, hu, run_backup_task]
              | some v =>
                  by_cases hv : v = "postgres" ∨ v = "postgresql" <;>
                    cases backup_run <;> simp [dispatch, hs, hv, run_backup_task]
  | Transformer tc =>
      cases tc
      simp [dispatch]
  | Restore value output =>
      cases hd : config.destination with
      | none => simp [dispatch, hd]
      | some dest =>
          cases output with
          | true => cases restore_run <;> simp [dispatch, hd]
          | false =>
              cases hu : dest.connection_uri <;> cases restore_run <;>
                simp [dispatch, hd, hu, run_restore_task]

theorem success_confirmation_gated_witness :
    (∃ inv,
        (dispatch ⟨some ⟨.Postgres "h" 5432 "u" "p" "d", none, none⟩, none⟩
            (.Backup (.Run none none)) ⟨[]⟩ (.ok ()) (.ok ())).task = some inv ∧
        inv.kind = .backup) ∧
    (Except.ok () : Except String Unit) = .ok () ∧
    (dispatch ⟨some ⟨.Postgres "h" 5432 "u" "p" "d", none, none⟩, none⟩
        (.Backup (.Run none none)) ⟨[]⟩ (.ok ()) (.ok ())).outcome = .ok :=
  (success_confirmation_gated ⟨some ⟨.Postgres "h" 5432 "u" "p" "d", none, none⟩, none⟩
      (.Backup (.Run none none)) ⟨[]⟩ (.ok ()) (.ok ())).1 (by decide)

end Replibyte
